import Mathlib

/-!
Verification of the Spotify dashboard application (`src/app.py`).

The program is a single-file Streamlit app.  We embed it shallowly:

* Streamlit session state, URL query parameters and the process file
  system become explicit values threaded through the functions.
* The remote Spotify endpoints (authorization-code exchange, refresh,
  profile and listening queries) become oracle functions supplied as
  arguments, returning `Except String _` — `Except.error e` stands for
  the Python call raising exception `e`.
* The parts of the third-party `spotipy` library that the app relies on
  (`SpotifyOAuth.get_access_token`, `SpotifyOAuth.refresh_access_token`,
  including their token-cache behaviour when a `cache_path` is given)
  are modelled from spotipy's documented semantics.
-/

namespace SpotifyApp

/-- A Spotify token dictionary as produced by spotipy: access token,
refresh token, the `scope` string, and `expires_at` (absolute Unix time,
`none` models a dict lacking the key — the app reads it with
`.get('expires_at', 0)`). -/
structure TokenInfo where
  accessToken : String
  refreshToken : String
  scope : List String
  expiresAt : Option Int
deriving Repr, DecidableEq

/-- A `spotipy.Spotify` client; the app constructs it as
`spotipy.Spotify(auth=token_info['access_token'])`, so the only datum is
the access token it was built with. -/
structure SpotifyClient where
  auth : String
deriving Repr, DecidableEq

/-- The three configuration values read from `st.secrets` at module load. -/
structure Config where
  clientId : String
  clientSecret : String
  redirectUri : String
deriving Repr, DecidableEq

/-- A `SpotifyOAuth` object as constructed by `get_spotify_oauth`. -/
structure SpotifyOAuth where
  clientId : String
  clientSecret : String
  redirectUri : String
  scope : List String
  cachePath : Option String
deriving Repr, DecidableEq

/-- The process file system, restricted to token-cache files: an
association list from path to the token stored in that file. -/
abbrev FileSys := List (String × TokenInfo)

/-- Read a file from the file system. -/
def fsRead (fs : FileSys) (path : String) : Option TokenInfo :=
  match fs with
  | [] => none
  | (p, t) :: rest => if p = path then some t else fsRead rest path

/-- Write (create or overwrite) a file. -/
def fsWrite (fs : FileSys) (path : String) (t : TokenInfo) : FileSys :=
  match fs with
  | [] => [(path, t)]
  | (p, t0) :: rest =>
      if p = path then (p, t) :: rest else (p, t0) :: fsWrite rest path t

/-- Streamlit `st.session_state`, restricted to the single key
`'token_info'` the app uses. -/
structure SessionState where
  tokenInfo : Option TokenInfo
deriving Repr, DecidableEq

/-- Streamlit `st.secrets`: a key-value store. -/
def Secrets := List (String × String)

/-- Dictionary lookup in `st.secrets`. -/
def secretsGet (s : Secrets) (k : String) : Option String :=
  match s with
  | [] => none
  | (k0, v) :: rest => if k0 = k then some v else secretsGet rest k

/-- Module-load of `src/app.py` lines 10–14: `st.secrets[KEY]` raises a
KeyError when the key is absent; `Except.error` carries the missing key. -/
def loadConfig (s : Secrets) : Except String Config :=
  match secretsGet s "SPOTIPY_CLIENT_ID" with
  | none => .error "KeyError: SPOTIPY_CLIENT_ID"
  | some cid =>
    match secretsGet s "SPOTIPY_CLIENT_SECRET" with
    | none => .error "KeyError: SPOTIPY_CLIENT_SECRET"
    | some cs =>
      match secretsGet s "SPOTIPY_REDIRECT_URI" with
      | none => .error "KeyError: SPOTIPY_REDIRECT_URI"
      | some ru => .ok { clientId := cid, clientSecret := cs, redirectUri := ru }

/-- The scope requested by the app: the space-separated scope string
`"user-read-private user-read-email user-top-read
user-read-recently-played"`, modelled as its list of scopes (spotipy
splits the string on spaces before every comparison). -/
def appScope : List String :=
  ["user-read-private", "user-read-email", "user-top-read",
   "user-read-recently-played"]

/-- App function `get_spotify_oauth` (lines 26–34): builds the
`SpotifyOAuth` object, with `cache_path=".spotifycache"`. -/
def get_spotify_oauth (cfg : Config) : SpotifyOAuth :=
  { clientId := cfg.clientId
    clientSecret := cfg.clientSecret
    redirectUri := cfg.redirectUri
    scope := appScope
    cachePath := some ".spotifycache" }

/-! ## Model of the spotipy library calls the app makes -/

/-- spotipy `_is_scope_subset`: every scope the OAuth object needs is
among the token's scopes. -/
def scopeSubset (needed has : List String) : Bool :=
  needed.all (fun s => has.contains s)

/-- spotipy `is_token_expired`: fewer than 60 seconds remain before
`expires_at` (absent `expires_at` treated as 0; spotipy-issued tokens
always carry it). -/
def is_token_expired (now : Int) (t : TokenInfo) : Bool :=
  t.expiresAt.getD 0 - now < 60

/-- Read the OAuth object's token cache file, when it has one. -/
def cacheRead (o : SpotifyOAuth) (fs : FileSys) : Option TokenInfo :=
  match o.cachePath with
  | none => none
  | some p => fsRead fs p

/-- Save a token to the OAuth object's cache file, when it has one. -/
def cacheWrite (o : SpotifyOAuth) (fs : FileSys) (t : TokenInfo) : FileSys :=
  match o.cachePath with
  | none => fs
  | some p => fsWrite fs p t

/-- spotipy `SpotifyOAuth.refresh_access_token`: POSTs the refresh token
to the token endpoint (`refreshApi`); on success saves the returned
token to the cache file and returns it; a failing request raises. -/
def refresh_access_token (o : SpotifyOAuth)
    (refreshApi : String → Except String TokenInfo)
    (rt : String) (fs : FileSys) : Except String (TokenInfo × FileSys) :=
  match refreshApi rt with
  | .error e => .error e
  | .ok t => .ok (t, cacheWrite o fs t)

/-- spotipy `SpotifyOAuth.validate_token`: `none` for no token or a
scope mismatch; an expired cached token is refreshed (which may raise);
otherwise the cached token is returned as is. -/
def validate_token (o : SpotifyOAuth)
    (refreshApi : String → Except String TokenInfo) (now : Int)
    (fs : FileSys) (cached : Option TokenInfo) :
    Except String (Option TokenInfo × FileSys) :=
  match cached with
  | none => .ok (none, fs)
  | some t =>
      if scopeSubset o.scope t.scope then
        if is_token_expired now t then
          match refresh_access_token o refreshApi t.refreshToken fs with
          | .error e => .error e
          | .ok (t2, fs2) => .ok (some t2, fs2)
        else .ok (some t, fs)
      else .ok (none, fs)

/-- spotipy `SpotifyOAuth.get_access_token(code)` with the default
`check_cache=True`: a valid cached token is returned without using the
authorization code; otherwise the code is exchanged (`exchangeApi`) and
the new token saved to the cache.  Either path may raise. -/
def get_access_token (o : SpotifyOAuth)
    (exchangeApi : String → Except String TokenInfo)
    (refreshApi : String → Except String TokenInfo) (now : Int)
    (code : String) (fs : FileSys) : Except String (TokenInfo × FileSys) :=
  match validate_token o refreshApi now fs (cacheRead o fs) with
  | .error e => .error e
  | .ok (some t, fs2) => .ok (t, fs2)
  | .ok (none, fs2) =>
      match exchangeApi code with
      | .error e => .error e
      | .ok t => .ok (t, cacheWrite o fs2 t)

/-! ## The app's token-lifecycle functions -/

/-- Result of `get_token_info` (lines 36–56).  `returned = none` means
the function did not return: `st.rerun()` was raised after a successful
exchange; `returned = some r` is a normal return of `r`.  `qpCode` is
the `code` URL query parameter after the call, `errMsg` the `st.error`
message shown, if any. -/
structure GetTokenOut where
  returned : Option (Option TokenInfo)
  session : SessionState
  qpCode : Option String
  fs : FileSys
  errMsg : Option String
deriving Repr, DecidableEq

/-- App function `get_token_info` (lines 36–56): if `code` is in the query params,
exchange it via `sp_oauth.get_access_token`; on success store the token
in the session, clear the query params and rerun; on exception show an
error and return `None`.  Without a code, return the session token. -/
def get_token_info (cfg : Config)
    (exchangeApi refreshApi : String → Except String TokenInfo) (now : Int)
    (qpCode : Option String) (sess : SessionState) (fs : FileSys) :
    GetTokenOut :=
  match qpCode with
  | some code =>
      let o := get_spotify_oauth cfg
      match get_access_token o exchangeApi refreshApi now code fs with
      | .ok (t, fs2) =>
          { returned := none
            session := { tokenInfo := some t }
            qpCode := none
            fs := fs2
            errMsg := none }
      | .error e =>
          { returned := some none
            session := sess
            qpCode := some code
            fs := fs
            errMsg := some ("Error getting access token: " ++ e) }
  | none =>
      { returned := some sess.tokenInfo
        session := sess
        qpCode := none
        fs := fs
        errMsg := none }

/-- Result of `get_spotify_client` (lines 58–81): the client returned
(or `none`), the session and file system after the call, whether
`refresh_access_token` was invoked, and any `st.error` message shown. -/
structure GetClientOut where
  result : Option SpotifyClient
  session : SessionState
  fs : FileSys
  refreshCalled : Bool
  errMsg : Option String
deriving Repr, DecidableEq

/-- App function `get_spotify_client` (lines 58–81): `None` for a falsy `token_info`;
otherwise refresh when fewer than 60 seconds remain before `expires_at`
(storing the refreshed token in the session, or on refresh failure
popping the session token, showing an error and returning `None`), and
finally build `spotipy.Spotify(auth=token_info['access_token'])`. -/
def get_spotify_client (cfg : Config)
    (refreshApi : String → Except String TokenInfo) (now : Int)
    (tokenInfo : Option TokenInfo) (sess : SessionState) (fs : FileSys) :
    GetClientOut :=
  match tokenInfo with
  | none =>
      { result := none, session := sess, fs := fs
        refreshCalled := false, errMsg := none }
  | some ti =>
      let o := get_spotify_oauth cfg
      let is_expired : Bool := ti.expiresAt.getD 0 - now < 60
      if is_expired then
        match refresh_access_token o refreshApi ti.refreshToken fs with
        | .ok (t2, fs2) =>
            { result := some { auth := t2.accessToken }
              session := { tokenInfo := some t2 }
              fs := fs2
              refreshCalled := true
              errMsg := none }
        | .error e =>
            { result := none
              session := { tokenInfo := none }
              fs := fs
              refreshCalled := true
              errMsg := some ("Error refreshing access token: " ++ e) }
      else
        { result := some { auth := ti.accessToken }
          session := sess
          fs := fs
          refreshCalled := false
          errMsg := none }

/-! ## Display functions and the main credential check -/

/-- What Streamlit renders: the calls the display functions make. -/
inductive UiEvent where
  | image (url : String)
  | title (s : String)
  | subheader (s : String)
  | write (s : String)
  | markdown (s : String)
  | linkButton (label url : String)
  | header (s : String)
  | warning (s : String)
  | divider
deriving Repr, DecidableEq

/-- The fields of the `sp.current_user()` response that
`display_user_profile` reads. -/
structure UserProfile where
  displayName : String
  email : String
  followersTotal : Nat
  images : List String
  spotifyUrl : String
deriving Repr, DecidableEq

/-- App function `display_user_profile` (lines 84–97): calls `sp.current_user()`
(the oracle `currentUser`) with no `try`/`except`, so a raising call
propagates as `Except.error`; otherwise renders the profile. -/
def display_user_profile
    (currentUser : SpotifyClient → Except String UserProfile)
    (sp : SpotifyClient) : Except String (List UiEvent) :=
  match currentUser sp with
  | .error e => .error e
  | .ok u =>
      .ok [ .image (match u.images with
              | [] => "https://placehold.co/150x150/2c2c2c/ffffff?text=User"
              | url :: _ => url)
          , .title ("Welcome, " ++ u.displayName ++ "!")
          , .subheader ("Email: " ++ u.email)
          , .write ("Followers: " ++ toString u.followersTotal)
          , .linkButton "View Profile on Spotify" u.spotifyUrl ]

/-- The fields of one recently-played item that
`display_recently_played` reads. -/
structure Track where
  name : String
  artistName : String
  albumName : String
  albumImageUrl : String
  spotifyUrl : String
deriving Repr, DecidableEq

/-- Rendering of one recently-played item (loop body, lines 126–135). -/
def renderTrack (t : Track) : List UiEvent :=
  [ .image t.albumImageUrl
  , .markdown ("**" ++ t.name ++ "**")
  , .markdown ("By " ++ t.artistName ++ " on *" ++ t.albumName ++ "*")
  , .linkButton "Play on Spotify" t.spotifyUrl
  , .divider ]

/-- App function `display_recently_played` (lines 118–135): calls
`sp.current_user_recently_played(limit=10)` (the oracle
`recentlyPlayed`) with no `try`/`except`, so a raising call propagates;
an empty item list shows a warning, otherwise each track is rendered. -/
def display_recently_played
    (recentlyPlayed : SpotifyClient → Except String (List Track))
    (sp : SpotifyClient) : Except String (List UiEvent) :=
  match recentlyPlayed sp with
  | .error e => .error e
  | .ok [] => .ok [.header "Recently Played Tracks",
                   .warning "No recently played tracks found."]
  | .ok items =>
      .ok (.header "Recently Played Tracks" :: (items.map renderTrack).flatten)

/-- The fields of one artist of the `sp.current_user_top_artists`
response that `display_top_artists` reads.  Spotify returns the artist
images in three sizes and the code takes `images[2]` (the smallest);
a shorter non-empty list would raise an IndexError in Python, which no
claim touches, so the access is modelled with a default. -/
structure Artist where
  name : String
  genres : List String
  images : List String
  spotifyUrl : String
deriving Repr, DecidableEq

/-- Python `str.title()` as used on genre names, modelled for
space-separated words: capitalise each word. -/
def pyTitle (s : String) : String :=
  " ".intercalate ((s.splitOn " ").map String.capitalize)

/-- Rendering of one top artist (loop body, lines 108–115): the image
only when the artist has images, then rank and name, the first two
genres title-cased and comma-joined, and the listen button. -/
def renderArtist (i : Nat) (a : Artist) : List UiEvent :=
  (match a.images with
   | [] => []
   | _ => [UiEvent.image (a.images.getD 2 "")]) ++
  [ .markdown ("**" ++ toString (i + 1) ++ ". " ++ a.name ++ "**")
  , .markdown ("*" ++ ", ".intercalate ((a.genres.take 2).map pyTitle)
      ++ "*")
  , .linkButton "Listen" a.spotifyUrl ]

/-- App function `display_top_artists` (lines 99–115): calls
`sp.current_user_top_artists(limit=10, time_range='medium_term')` (the
oracle `topArtists`) with no `try`/`except`, so a raising call
propagates; an empty item list shows a warning, otherwise each artist is
rendered with its position. -/
def display_top_artists
    (topArtists : SpotifyClient → Except String (List Artist))
    (sp : SpotifyClient) : Except String (List UiEvent) :=
  match topArtists sp with
  | .error e => .error e
  | .ok [] => .ok [.header "Your Top Artists (Last 6 Months)",
                   .warning "Couldn\x27t find any top artists. Go listen to some music!"]
  | .ok items =>
      .ok (.header "Your Top Artists (Last 6 Months)" ::
        (items.enum.map (fun p => renderArtist p.1 p.2)).flatten)

/-- Outcome of the credential check at the top of `main`. -/
inductive MainStart where
  | halted (msgs : List String)
  | proceed
deriving Repr, DecidableEq

/-- Lines 140–145 of `main`: `if not all([CLIENT_ID, CLIENT_SECRET,
REDIRECT_URI])` — any empty (falsy) credential shows the error and info
messages and calls `st.stop()`, halting further interaction. -/
def main_cred_check (cfg : Config) : MainStart :=
  if cfg.clientId = "" ∨ cfg.clientSecret = "" ∨ cfg.redirectUri = "" then
    .halted
      [ "🚨 Critical Error: Spotify API credentials are not set."
      , "Please set SPOTIPY_CLIENT_ID, SPOTIPY_CLIENT_SECRET, and SPOTIPY_REDIRECT_URI as environment variables."
      , "Refer to the README.md file for instructions." ]
  else .proceed

end SpotifyApp

namespace PdfIngestor

/-- Modelled from the spec: no PDF-handling code is under `src/` (the
spec covers sibling variants of the repository).  An uploaded file
either fails to parse entirely (corrupt) or parses into a list of pages,
each contributing its extracted text (possibly the empty string). -/
inductive PdfFile where
  | corrupt
  | pages (ps : List String)
deriving Repr, DecidableEq

/-- Modelled from the spec: per-file extraction — `none` on total parse
failure, otherwise the concatenation of the per-page extracted text. -/
def extractFileText : PdfFile → Option String
  | .corrupt => none
  | .pages ps => some (String.join ps)

/-- Modelled from the spec: the Document Ingestor processes the uploaded
files in order; a corrupt file reports an error and is skipped, a parsed
file contributes its pages' text with no separators.  Returns the
aggregated text and the error messages reported. -/
def ingest : List PdfFile → String × List String
  | [] => ("", [])
  | f :: rest =>
      let (txt, errs) := ingest rest
      match f with
      | .corrupt => (txt, "Error reading file" :: errs)
      | .pages ps => (String.join ps ++ txt, errs)

end PdfIngestor

namespace SpotifyApp

/-- A sample configuration with all three credentials present. -/
def sampleCfg : Config :=
  { clientId := "cid", clientSecret := "sec",
    redirectUri := "http://localhost:8501" }

/-- Sample token of user A (expires at Unix time 10000). -/
def tokA : TokenInfo :=
  { accessToken := "accA", refreshToken := "refA", scope := appScope,
    expiresAt := some 10000 }

/-- Sample token of user B (expires at Unix time 10000). -/
def tokB : TokenInfo :=
  { accessToken := "accB", refreshToken := "refB", scope := appScope,
    expiresAt := some 10000 }

/-- Sample token returned by a successful refresh. -/
def tokR : TokenInfo :=
  { accessToken := "accR", refreshToken := "refR", scope := appScope,
    expiresAt := some 20000 }

/-- Sample code-exchange endpoint: authorization code `"codeA"` belongs
to user A, `"codeB"` to user B, anything else is rejected. -/
def exchangeAB : String → Except String TokenInfo := fun c =>
  if c = "codeA" then .ok tokA
  else if c = "codeB" then .ok tokB
  else .error "invalid_grant"

/-- Sample refresh endpoint that always succeeds with `tokR`. -/
def refreshOk : String → Except String TokenInfo := fun _ => .ok tokR

/-- Sample refresh endpoint that always fails. -/
def refreshFail : String → Except String TokenInfo := fun _ =>
  .error "invalid_grant"

/-- The file system after user A's code exchange, starting from an empty
file system. -/
def fsAfterA : FileSys :=
  (get_token_info sampleCfg exchangeAB refreshOk 0 (some "codeA")
    ⟨none⟩ []).fs

end SpotifyApp

open SpotifyApp PdfIngestor

/-- Claim C1: for a `token_info` whose `expires_at` is within 60 seconds
of the current time (fewer than 60 seconds remain), `get_spotify_client`
calls the refresh exchange before constructing the client, and when the
refresh succeeds the client is built from the refreshed access token;
for a `token_info` with more than 60 seconds remaining, no refresh call
is made and the client is built from the existing access token. -/
theorem C1_refresh_only_near_expiry (cfg : Config)
    (refreshApi : String → Except String TokenInfo) (now : Int)
    (ti : TokenInfo) (sess : SessionState) (fs : FileSys) :
    (ti.expiresAt.getD 0 - now < 60 →
      (get_spotify_client cfg refreshApi now (some ti) sess fs).refreshCalled
        = true ∧
      ∀ t2, refreshApi ti.refreshToken = .ok t2 →
        (get_spotify_client cfg refreshApi now (some ti) sess fs).result =
          some { auth := t2.accessToken }) ∧
    (60 < ti.expiresAt.getD 0 - now →
      (get_spotify_client cfg refreshApi now (some ti) sess fs).refreshCalled
        = false ∧
      (get_spotify_client cfg refreshApi now (some ti) sess fs).result =
        some { auth := ti.accessToken }) := by
  constructor
  · intro h
    constructor
    · cases hr : refreshApi ti.refreshToken <;>
        simp [get_spotify_client, refresh_access_token, h, hr]
    · intro t2 hok
      simp [get_spotify_client, refresh_access_token, h, hok]
  · intro h
    have h' : ¬ (ti.expiresAt.getD 0 - now < 60) := by omega
    simp [get_spotify_client, h']

/-- Witness for C1: at `now = 9990`, `tokA` (expiry 10000) is within 60
seconds of expiry and the refresh is called; at `now = 0` it has more
than 60 seconds left, no refresh happens, and the client carries the
existing access token. -/
theorem C1_refresh_only_near_expiry_witness :
    (get_spotify_client sampleCfg refreshOk 9990 (some tokA) ⟨some tokA⟩
      []).refreshCalled = true ∧
    (get_spotify_client sampleCfg refreshOk 0 (some tokA) ⟨some tokA⟩
      []).refreshCalled = false ∧
    (get_spotify_client sampleCfg refreshOk 0 (some tokA) ⟨some tokA⟩
      []).result = some { auth := "accA" } := by
  refine ⟨?_, ?_, ?_⟩
  · exact ((C1_refresh_only_near_expiry sampleCfg refreshOk 9990 tokA
      ⟨some tokA⟩ []).1 (by decide)).1
  · exact ((C1_refresh_only_near_expiry sampleCfg refreshOk 0 tokA
      ⟨some tokA⟩ []).2 (by decide)).1
  · exact ((C1_refresh_only_near_expiry sampleCfg refreshOk 0 tokA
      ⟨some tokA⟩ []).2 (by decide)).2

/-- Claim C2: when the token is due for refresh and the refresh call
raises, `get_spotify_client` removes `token_info` from the session state
and returns `None` (the session is back in the unauthenticated state). -/
theorem C2_refresh_failure_clears_session (cfg : Config)
    (refreshApi : String → Except String TokenInfo) (now : Int)
    (ti : TokenInfo) (sess : SessionState) (fs : FileSys) (e : String)
    (hexp : ti.expiresAt.getD 0 - now < 60)
    (hfail : refreshApi ti.refreshToken = .error e) :
    (get_spotify_client cfg refreshApi now (some ti) sess fs).result = none ∧
    (get_spotify_client cfg refreshApi now (some ti) sess fs).session.tokenInfo
      = none := by
  simp [get_spotify_client, refresh_access_token, hexp, hfail]

/-- Witness for C2: user A's token at `now = 9990` with a failing
refresh endpoint. -/
theorem C2_refresh_failure_clears_session_witness :
    (get_spotify_client sampleCfg refreshFail 9990 (some tokA) ⟨some tokA⟩
      []).result = none ∧
    (get_spotify_client sampleCfg refreshFail 9990 (some tokA) ⟨some tokA⟩
      []).session.tokenInfo = none :=
  C2_refresh_failure_clears_session sampleCfg refreshFail 9990 tokA
    ⟨some tokA⟩ [] "invalid_grant" (by decide) rfl

/-- Claim C7: on a successful refresh the session's `token_info` is
replaced wholesale by the token the refresh returned; and after any call
of `get_spotify_client` the stored token is absent, the unchanged
previous session token, or exactly a successful refresh response. -/
theorem C7_token_replaced_wholesale (cfg : Config)
    (refreshApi : String → Except String TokenInfo) (now : Int)
    (ti : TokenInfo) (sess : SessionState) (fs : FileSys) :
    (∀ t2, ti.expiresAt.getD 0 - now < 60 →
      refreshApi ti.refreshToken = .ok t2 →
      (get_spotify_client cfg refreshApi now (some ti) sess fs).session.tokenInfo
        = some t2) ∧
    ((get_spotify_client cfg refreshApi now (some ti) sess fs).session.tokenInfo
        = none ∨
     (get_spotify_client cfg refreshApi now (some ti) sess fs).session.tokenInfo
        = sess.tokenInfo ∨
     ∃ t2, refreshApi ti.refreshToken = .ok t2 ∧
       (get_spotify_client cfg refreshApi now (some ti) sess fs).session.tokenInfo
         = some t2) := by
  constructor
  · intro t2 h hok
    simp [get_spotify_client, refresh_access_token, h, hok]
  · by_cases h : ti.expiresAt.getD 0 - now < 60
    · cases hr : refreshApi ti.refreshToken with
      | error e =>
          left; simp [get_spotify_client, refresh_access_token, h, hr]
      | ok t2 =>
          right; right
          exact ⟨t2, rfl, by
            simp [get_spotify_client, refresh_access_token, h, hr]⟩
    · right; left
      simp [get_spotify_client, h]

/-- Witness for C7: a successful refresh of `tokA` at `now = 9990`
stores exactly `tokR` in the session. -/
theorem C7_token_replaced_wholesale_witness :
    (get_spotify_client sampleCfg refreshOk 9990 (some tokA) ⟨some tokA⟩
      []).session.tokenInfo = some tokR :=
  (C7_token_replaced_wholesale sampleCfg refreshOk 9990 tokA ⟨some tokA⟩
    []).1 tokR (by decide) rfl

/-- Claim C9: when `get_access_token` succeeds on the authorization code
in the URL, `get_token_info` stores the token in the session, clears the
`code` query parameter and reruns (so the code is never submitted a
second time). -/
theorem C9_code_cleared_on_success (cfg : Config)
    (exchangeApi refreshApi : String → Except String TokenInfo) (now : Int)
    (code : String) (sess : SessionState) (fs : FileSys) (t : TokenInfo)
    (fs2 : FileSys)
    (h : get_access_token (get_spotify_oauth cfg) exchangeApi refreshApi now
      code fs = .ok (t, fs2)) :
    get_token_info cfg exchangeApi refreshApi now (some code) sess fs =
      { returned := none, session := ⟨some t⟩, qpCode := none, fs := fs2,
        errMsg := none } := by
  simp [get_token_info, h]

/-- Witness for C9: user A's login at `now = 0` from an empty file
system. -/
theorem C9_code_cleared_on_success_witness :
    get_token_info sampleCfg exchangeAB refreshOk 0 (some "codeA") ⟨none⟩ [] =
      { returned := none, session := ⟨some tokA⟩, qpCode := none,
        fs := [(".spotifycache", tokA)], errMsg := none } :=
  C9_code_cleared_on_success sampleCfg exchangeAB refreshOk 0 "codeA" ⟨none⟩
    [] tokA [(".spotifycache", tokA)] rfl

/-- Claim C10: whenever `get_spotify_client` returns a client, the
access token it carries either had at least 60 seconds remaining before
expiry at the check, or is the access token of a successful refresh
response; and a `None`/falsy `token_info` yields no client. -/
theorem C10_client_token_provenance (cfg : Config)
    (refreshApi : String → Except String TokenInfo) (now : Int)
    (ti : TokenInfo) (sess : SessionState) (fs : FileSys) :
    (∀ c, (get_spotify_client cfg refreshApi now (some ti) sess fs).result
        = some c →
      (60 ≤ ti.expiresAt.getD 0 - now ∧ c = { auth := ti.accessToken }) ∨
      (∃ t2, refreshApi ti.refreshToken = .ok t2 ∧
        c = { auth := t2.accessToken })) ∧
    (get_spotify_client cfg refreshApi now none sess fs).result = none := by
  constructor
  · intro c hc
    by_cases h : ti.expiresAt.getD 0 - now < 60
    · right
      cases hr : refreshApi ti.refreshToken with
      | error e =>
          simp [get_spotify_client, refresh_access_token, h, hr] at hc
      | ok t2 =>
          simp [get_spotify_client, refresh_access_token, h, hr] at hc
          exact ⟨t2, rfl, hc.symm⟩
    · left
      refine ⟨by omega, ?_⟩
      simp [get_spotify_client, h] at hc
      exact hc.symm
  · rfl

/-- Witness for C10: at `now = 0` the client for `tokA` is returned and
its token is the unexpired existing one; a `none` input yields no
client. -/
theorem C10_client_token_provenance_witness :
    ((60 ≤ tokA.expiresAt.getD 0 - 0 ∧
        ({ auth := "accA" } : SpotifyClient) = { auth := tokA.accessToken }) ∨
      (∃ t2, refreshOk tokA.refreshToken = .ok t2 ∧
        ({ auth := "accA" } : SpotifyClient) = { auth := t2.accessToken })) ∧
    (get_spotify_client sampleCfg refreshOk 0 none ⟨none⟩ []).result
      = none := by
  constructor
  · exact (C10_client_token_provenance sampleCfg refreshOk 0 tokA ⟨some tokA⟩
      []).1 { auth := "accA" } rfl
  · exact (C10_client_token_provenance sampleCfg refreshOk 0 tokA ⟨none⟩
      []).2

/-- Claim C3 as stated is false at this concrete input: the display
functions have no `try`/`except`, so a failing `sp.current_user()`,
`sp.current_user_top_artists(...)` or
`sp.current_user_recently_played()` call propagates out of
`display_user_profile` / `display_top_artists` /
`display_recently_played` as an uncaught exception (`Except.error`)
instead of being converted to a user-visible error message. -/
theorem C3_display_failure_propagates :
    display_user_profile (fun _ => .error "network error")
      { auth := "accA" } = .error "network error" ∧
    display_top_artists (fun _ => .error "rate limited")
      { auth := "accA" } = .error "rate limited" ∧
    display_recently_played (fun _ => .error "API unavailable")
      { auth := "accA" } = .error "API unavailable" :=
  ⟨rfl, rfl, rfl⟩

/-- Claim C3 amended: OAuth code-exchange and refresh failures are
caught where they occur and converted to `st.error` messages (the
functions return normally), while failures of the profile, top-artists
and recently-played queries propagate uncaught out of the display
functions. -/
theorem C3_error_handling_split :
    (∀ (cfg : Config)
       (exchangeApi refreshApi : String → Except String TokenInfo)
       (now : Int) (code : String) (sess : SessionState) (fs : FileSys)
       (e : String),
       get_access_token (get_spotify_oauth cfg) exchangeApi refreshApi now
         code fs = .error e →
       (get_token_info cfg exchangeApi refreshApi now (some code) sess
         fs).returned = some none ∧
       (get_token_info cfg exchangeApi refreshApi now (some code) sess
         fs).errMsg = some ("Error getting access token: " ++ e)) ∧
    (∀ (cfg : Config) (refreshApi : String → Except String TokenInfo)
       (now : Int) (ti : TokenInfo) (sess : SessionState) (fs : FileSys)
       (e : String),
       ti.expiresAt.getD 0 - now < 60 →
       refreshApi ti.refreshToken = .error e →
       (get_spotify_client cfg refreshApi now (some ti) sess fs).result
         = none ∧
       (get_spotify_client cfg refreshApi now (some ti) sess fs).errMsg
         = some ("Error refreshing access token: " ++ e)) ∧
    (∀ (api : SpotifyClient → Except String UserProfile)
       (sp : SpotifyClient) (e : String),
       api sp = .error e → display_user_profile api sp = .error e) ∧
    (∀ (api : SpotifyClient → Except String (List Artist))
       (sp : SpotifyClient) (e : String),
       api sp = .error e → display_top_artists api sp = .error e) ∧
    (∀ (api : SpotifyClient → Except String (List Track))
       (sp : SpotifyClient) (e : String),
       api sp = .error e → display_recently_played api sp = .error e) := by
  refine ⟨?_, ?_, ?_, ?_, ?_⟩
  · intro cfg exchangeApi refreshApi now code sess fs e h
    simp [get_token_info, h]
  · intro cfg refreshApi now ti sess fs e hexp hfail
    simp [get_spotify_client, refresh_access_token, hexp, hfail]
  · intro api sp e h
    simp [display_user_profile, h]
  · intro api sp e h
    simp [display_top_artists, h]
  · intro api sp e h
    simp [display_recently_played, h]

/-- Witness for the amended C3, at concrete inputs: a rejected code and
a failed refresh each yield an error message; a failed profile query, a
failed top-artists query and a failed recently-played query each
propagate. -/
theorem C3_error_handling_split_witness :
    (get_token_info sampleCfg exchangeAB refreshOk 0 (some "badcode") ⟨none⟩
      []).errMsg = some "Error getting access token: invalid_grant" ∧
    (get_spotify_client sampleCfg refreshFail 9990 (some tokA) ⟨some tokA⟩
      []).errMsg = some "Error refreshing access token: invalid_grant" ∧
    display_user_profile (fun _ => .error "down") { auth := "accA" }
      = .error "down" ∧
    display_top_artists (fun _ => .error "down") { auth := "accA" }
      = .error "down" ∧
    display_recently_played (fun _ => .error "down") { auth := "accA" }
      = .error "down" := by
  refine ⟨?_, ?_, ?_, ?_, ?_⟩
  · exact (C3_error_handling_split.1 sampleCfg exchangeAB refreshOk 0
      "badcode" ⟨none⟩ [] "invalid_grant" rfl).2
  · exact (C3_error_handling_split.2.1 sampleCfg refreshFail 9990 tokA
      ⟨some tokA⟩ [] "invalid_grant" (by decide) rfl).2
  · exact C3_error_handling_split.2.2.1 (fun _ => .error "down")
      { auth := "accA" } "down" rfl
  · exact C3_error_handling_split.2.2.2.1 (fun _ => .error "down")
      { auth := "accA" } "down" rfl
  · exact C3_error_handling_split.2.2.2.2 (fun _ => .error "down")
      { auth := "accA" } "down" rfl

/-- Claim C4 as stated is false at this concrete input:
`get_spotify_oauth` passes `cache_path=".spotifycache"`, so user A's
successful code exchange (from an empty file system) writes the token to
the file `.spotifycache` — storage outside the session's in-process
memory, which outlives the session. -/
theorem C4_token_written_to_disk :
    (get_spotify_oauth sampleCfg).cachePath = some ".spotifycache" ∧
    fsRead (get_token_info sampleCfg exchangeAB refreshOk 0 (some "codeA")
      ⟨none⟩ []).fs ".spotifycache" = some tokA :=
  ⟨rfl, rfl⟩

/-- Reading back the file just written. -/
theorem fsRead_fsWrite (fs : FileSys) (p : String) (t : TokenInfo) :
    fsRead (fsWrite fs p t) p = some t := by
  induction fs with
  | nil => simp [fsWrite, fsRead]
  | cons hd tl ih =>
      obtain ⟨q, t0⟩ := hd
      by_cases h : q = p <;> simp [fsWrite, fsRead, h, ih]

/-- A successful `refresh_access_token` on an OAuth object with a cache
path leaves the returned token in the cache file. -/
theorem refresh_access_token_caches (o : SpotifyOAuth) (p : String)
    (hp : o.cachePath = some p)
    (refreshApi : String → Except String TokenInfo) (rt : String)
    (fs fs2 : FileSys) (t : TokenInfo)
    (h : refresh_access_token o refreshApi rt fs = .ok (t, fs2)) :
    fsRead fs2 p = some t := by
  cases hr : refreshApi rt with
  | error e => simp [refresh_access_token, hr] at h
  | ok t0 =>
      simp only [refresh_access_token, hr, cacheWrite, hp] at h
      simp only [Except.ok.injEq, Prod.mk.injEq] at h
      obtain ⟨ht, hfs⟩ := h
      subst ht hfs
      exact fsRead_fsWrite fs p t0

/-- A successful `get_access_token` on an OAuth object with a cache path
leaves the returned token in the cache file, on every path (cache hit,
refresh of an expired cached token, and fresh code exchange). -/
theorem get_access_token_caches (o : SpotifyOAuth) (p : String)
    (hp : o.cachePath = some p)
    (exchangeApi refreshApi : String → Except String TokenInfo)
    (now : Int) (code : String) (fs fs2 : FileSys) (t : TokenInfo)
    (h : get_access_token o exchangeApi refreshApi now code fs
      = .ok (t, fs2)) :
    fsRead fs2 p = some t := by
  simp only [get_access_token, validate_token, cacheRead, hp] at h
  cases hc : fsRead fs p with
  | none =>
      cases he : exchangeApi code with
      | error e => simp [hc, he] at h
      | ok t0 =>
          simp [hc, he, cacheWrite, hp] at h
          obtain ⟨ht, hfs⟩ := h
          subst ht
          subst hfs
          exact fsRead_fsWrite fs p t0
  | some tc =>
      by_cases hs : scopeSubset o.scope tc.scope
      · by_cases hexp : is_token_expired now tc
        · cases hr : refreshApi tc.refreshToken with
          | error e => simp [hc, hs, hexp, refresh_access_token, hr] at h
          | ok t0 =>
              simp [hc, hs, hexp, refresh_access_token, hr, cacheWrite,
                hp] at h
              obtain ⟨ht, hfs⟩ := h
              subst ht
              subst hfs
              exact fsRead_fsWrite fs p t0
        · simp [hc, hs, hexp] at h
          obtain ⟨ht, hfs⟩ := h
          subst ht
          subst hfs
          exact hc
      · cases he : exchangeApi code with
        | error e => simp [hc, hs, he] at h
        | ok t0 =>
            simp [hc, hs, he, cacheWrite, hp] at h
            obtain ⟨ht, hfs⟩ := h
            subst ht
            subst hfs
            exact fsRead_fsWrite fs p t0

/-- Claim C4 amended: the token pair is kept in the session's memory but
is additionally persisted to the OAuth cache file `.spotifycache`:
whenever `get_access_token` or `refresh_access_token` on the app's OAuth
object succeeds, the token it returns is stored in that file. -/
theorem C4_cache_persists_tokens (cfg : Config)
    (exchangeApi refreshApi : String → Except String TokenInfo)
    (now : Int) (code rt : String) (fs fs2 : FileSys) (t : TokenInfo) :
    (get_access_token (get_spotify_oauth cfg) exchangeApi refreshApi now code
       fs = .ok (t, fs2) → fsRead fs2 ".spotifycache" = some t) ∧
    (refresh_access_token (get_spotify_oauth cfg) refreshApi rt fs
       = .ok (t, fs2) → fsRead fs2 ".spotifycache" = some t) :=
  ⟨get_access_token_caches (get_spotify_oauth cfg) ".spotifycache" rfl
      exchangeApi refreshApi now code fs fs2 t,
   refresh_access_token_caches (get_spotify_oauth cfg) ".spotifycache" rfl
      refreshApi rt fs fs2 t⟩

/-- Witness for the amended C4: user A's concrete exchange leaves `tokA`
in the cache file. -/
theorem C4_cache_persists_tokens_witness :
    fsRead [(".spotifycache", tokA)] ".spotifycache" = some tokA :=
  (C4_cache_persists_tokens sampleCfg exchangeAB refreshOk 0 "codeA" "refA"
    [] [(".spotifycache", tokA)] tokA).1 rfl

/-- Claim C5 as stated is false at this concrete input: the token cache
file is shared across sessions.  After user A's code exchange (from an
empty file system), user B's login with B's own authorization code
stores user A's token in B's session, whereas from a clean file system
it would store user B's token — so A's operation altered the
authentication state B observes. -/
theorem C5_cross_session_leak :
    (get_token_info sampleCfg exchangeAB refreshOk 0 (some "codeB") ⟨none⟩
      fsAfterA).session.tokenInfo = some tokA ∧
    (get_token_info sampleCfg exchangeAB refreshOk 0 (some "codeB") ⟨none⟩
      []).session.tokenInfo = some tokB ∧
    tokA ≠ tokB :=
  ⟨rfl, rfl, by decide⟩

/-- Claim C5 amended: the Streamlit session state itself is per-session,
but the OAuth token cache file is mutable state shared across sessions:
whenever the cache file holds a token with the required scopes that is
not within 60 seconds of expiry, `get_access_token` — and hence any
session's login — returns that cached token, regardless of the session's
own authorization code and of what the exchange endpoint would answer
for it. -/
theorem C5_cached_token_served_to_any_session (o : SpotifyOAuth)
    (exchangeApi refreshApi : String → Except String TokenInfo)
    (now : Int) (code : String) (fs : FileSys) (t : TokenInfo)
    (hc : cacheRead o fs = some t)
    (hs : scopeSubset o.scope t.scope = true)
    (he : is_token_expired now t = false) :
    get_access_token o exchangeApi refreshApi now code fs = .ok (t, fs) := by
  simp [get_access_token, validate_token, hc, hs, he]

/-- Witness for the amended C5: with user A's token cached, user B's
code exchange at `now = 0` returns `tokA` and leaves the file system
unchanged. -/
theorem C5_cached_token_served_to_any_session_witness :
    get_access_token (get_spotify_oauth sampleCfg) exchangeAB refreshOk 0
      "codeB" fsAfterA = .ok (tokA, fsAfterA) :=
  C5_cached_token_served_to_any_session (get_spotify_oauth sampleCfg)
    exchangeAB refreshOk 0 "codeB" fsAfterA tokA rfl (by decide) (by decide)

/-- Claim C6 as stated is false at this concrete input: when a required
secret key is absent, `st.secrets[...]` raises a KeyError at module load
(lines 10–14), before the explanatory check in `main` can run.  With
`SPOTIPY_CLIENT_ID` absent from the secrets, loading the module raises
and no explanatory message is shown. -/
theorem C6_missing_key_raises :
    loadConfig [("SPOTIPY_CLIENT_SECRET", "sec"),
                ("SPOTIPY_REDIRECT_URI", "http://localhost:8501")] =
      .error "KeyError: SPOTIPY_CLIENT_ID" :=
  rfl

/-- Claim C6 amended: a credential that is present but empty (falsy)
makes `main` halt further interaction with the explanatory error and
info messages; a credential key absent from the secrets instead raises
an uncaught KeyError at module load. -/
theorem C6_credential_check (cfg : Config) (s : Secrets)
    (h : cfg.clientId = "" ∨ cfg.clientSecret = "" ∨ cfg.redirectUri = "")
    (hk : secretsGet s "SPOTIPY_CLIENT_ID" = none) :
    main_cred_check cfg = .halted
      [ "🚨 Critical Error: Spotify API credentials are not set."
      , "Please set SPOTIPY_CLIENT_ID, SPOTIPY_CLIENT_SECRET, and SPOTIPY_REDIRECT_URI as environment variables."
      , "Refer to the README.md file for instructions." ] ∧
    loadConfig s = .error "KeyError: SPOTIPY_CLIENT_ID" := by
  constructor
  · rcases h with h | h | h <;> simp [main_cred_check, h]
  · simp [loadConfig, hk]

/-- Witness for the amended C6: an empty client id halts `main` with the
explanatory messages, and empty secrets raise a KeyError at load. -/
theorem C6_credential_check_witness :
    main_cred_check ⟨"", "sec", "http://localhost:8501"⟩ = .halted
      [ "🚨 Critical Error: Spotify API credentials are not set."
      , "Please set SPOTIPY_CLIENT_ID, SPOTIPY_CLIENT_SECRET, and SPOTIPY_REDIRECT_URI as environment variables."
      , "Refer to the README.md file for instructions." ] ∧
    loadConfig [] = .error "KeyError: SPOTIPY_CLIENT_ID" :=
  C6_credential_check ⟨"", "sec", "http://localhost:8501"⟩ []
    (Or.inl rfl) rfl

/-- Appending a string to a joined list is joining the longer list. -/
theorem string_join_cons (a : String) (l : List String) :
    String.join (a :: l) = a ++ String.join l := by
  apply String.ext
  simp [String.join_eq]

/-- Claim C8 (the Document Ingestor is modelled from the spec — no PDF
code is under `src/`): the aggregated text equals the concatenation, in
upload order, of the per-page extracted text of every file that parses;
unparseable files contribute only an error report, and `ingest` is a
total function, so no file failure raises for the whole set. -/
theorem C8_aggregate_is_ordered_concat (files : List PdfFile) :
    (ingest files).1 = String.join (files.filterMap extractFileText) ∧
    (ingest files).2.length
      = files.countP (fun f => (extractFileText f).isNone) := by
  induction files with
  | nil => exact ⟨rfl, rfl⟩
  | cons f rest ih =>
      cases f with
      | corrupt =>
          refine ⟨?_, ?_⟩
          · simpa [ingest, extractFileText] using ih.1
          · simpa [ingest, extractFileText, List.countP_cons] using ih.2
      | pages ps =>
          refine ⟨?_, ?_⟩
          · simp [ingest, extractFileText, string_join_cons, ih.1]
          · simpa [ingest, extractFileText, List.countP_cons] using ih.2
